import Mathlib

/-!
Verification of the waker-page primitive and the UDP peer of the catnip
networking stack.  The waker page (`collections/waker_page.rs`) is embedded as
a record of three 64-bit bitmaps (represented as `Nat`, with bitwise masks
exactly as in the source); the reference-count discipline of page handles and
slot notifiers is embedded as a small trace semantics; the slot-pointer codec
is embedded as `Nat` address arithmetic.  The UDP peer (`protocols/udp/peer.rs`)
is embedded as a state record with the socket and bound maps as functions,
the outbound channel and the transmit path as lists of emitted items.
-/

/-- All-ones 64-bit mask, `u64::MAX`. -/
def U64_MASK : Nat := 2 ^ 64 - 1

/-- Bitwise complement within 64 bits, the `!` operator on `u64`. -/
def not64 (x : Nat) : Nat := x ^^^ U64_MASK

/-- The three bitmaps of a `WakerPage` (`notified`, `completed`, `dropped`).
The `refcount` and `waker` fields are modelled separately. -/
structure WakerPage where
  notified : Nat
  completed : Nat
  dropped : Nat
deriving DecidableEq, Repr

/-- `WakerPage::new` stores zero into all three bitmaps. -/
def WakerPage.new : WakerPage := ⟨0, 0, 0⟩

/-- `WakerPage::notify`: `self.notified.fetch_or(1 << ix, SeqCst)` (the
`waker.wake()` call is external to the bitmap state). -/
def WakerPage.notify (p : WakerPage) (ix : Nat) : WakerPage :=
  { p with notified := p.notified ||| (1 <<< ix) }

/-- `WakerPage::take_notified`: swap `notified` to zero, then mask out the
bits of `completed` and of `dropped`; returns the harvested bitmap and the
resulting page state. -/
def WakerPage.take_notified (p : WakerPage) : Nat × WakerPage :=
  let n0 := p.notified
  let n1 := n0 &&& not64 p.completed
  let n2 := n1 &&& not64 p.dropped
  (n2, { p with notified := 0 })

/-- `WakerPage::has_completed`. -/
def WakerPage.has_completed (p : WakerPage) (ix : Nat) : Bool :=
  p.completed &&& (1 <<< ix) != 0

/-- `WakerPage::mark_completed`: `completed.fetch_or(1 << ix)`. -/
def WakerPage.mark_completed (p : WakerPage) (ix : Nat) : WakerPage :=
  { p with completed := p.completed ||| (1 <<< ix) }

/-- `WakerPage::mark_dropped`: `dropped.fetch_or(1 << ix)` (plus an external
wake). -/
def WakerPage.mark_dropped (p : WakerPage) (ix : Nat) : WakerPage :=
  { p with dropped := p.dropped ||| (1 <<< ix) }

/-- `WakerPage::take_dropped`: swap `dropped` to zero, returning the old
value. -/
def WakerPage.take_dropped (p : WakerPage) : Nat × WakerPage :=
  (p.dropped, { p with dropped := 0 })

/-- `WakerPage::was_dropped`. -/
def WakerPage.was_dropped (p : WakerPage) (ix : Nat) : Bool :=
  p.dropped &&& (1 <<< ix) != 0

/-- The slot-assignment operation of `WakerPage` (source line 96): OR-set the
`notified` bit of `ix`, AND-clear its `completed` and `dropped` bits. -/
def WakerPage.init_slot (p : WakerPage) (ix : Nat) : WakerPage :=
  { p with
    notified := p.notified ||| (1 <<< ix),
    completed := p.completed &&& not64 (1 <<< ix),
    dropped := p.dropped &&& not64 (1 <<< ix) }

/-- `WakerPage::clear`: AND all three bitmaps with `!(1 << ix)`. -/
def WakerPage.clear (p : WakerPage) (ix : Nat) : WakerPage :=
  { p with
    notified := p.notified &&& not64 (1 <<< ix),
    completed := p.completed &&& not64 (1 <<< ix),
    dropped := p.dropped &&& not64 (1 <<< ix) }

/-- Bit `i` of the all-ones 64-bit mask is set exactly when `i < 64`. -/
theorem u64_mask_testBit (i : Nat) : U64_MASK.testBit i = decide (i < 64) :=
  Nat.testBit_two_pow_sub_one 64 i

/-- C1: `take_notified` returns the prior `notified` bitmap with every bit set
in `completed` or in `dropped` masked out, leaves the `notified` bitmap zero,
and a second immediate call returns 0. -/
theorem take_notified_spec (p : WakerPage) (i : Nat) (h : i < 64) :
    (WakerPage.take_notified p).1 =
      p.notified &&& not64 p.completed &&& not64 p.dropped ∧
    (WakerPage.take_notified p).1.testBit i =
      (p.notified.testBit i && !p.completed.testBit i && !p.dropped.testBit i) ∧
    (WakerPage.take_notified p).2.notified = 0 ∧
    (WakerPage.take_notified (WakerPage.take_notified p).2).1 = 0 := by
  refine ⟨rfl, ?_, rfl, ?_⟩
  · simp [WakerPage.take_notified, not64, u64_mask_testBit, h, Bool.and_assoc]
  · simp [WakerPage.take_notified]

/-- C1 witness: the theorem applied to the concrete page ⟨11, 5, 3⟩ at bit 0. -/
theorem take_notified_spec_witness :
    (0 : Nat) < 64 ∧
    ((WakerPage.take_notified ⟨11, 5, 3⟩).1 =
      (11 : Nat) &&& not64 5 &&& not64 3 ∧
    (WakerPage.take_notified ⟨11, 5, 3⟩).1.testBit 0 =
      ((11 : Nat).testBit 0 && !(5 : Nat).testBit 0 && !(3 : Nat).testBit 0) ∧
    (WakerPage.take_notified ⟨11, 5, 3⟩).2.notified = 0 ∧
    (WakerPage.take_notified (WakerPage.take_notified ⟨11, 5, 3⟩).2).1 = 0) :=
  ⟨by decide, take_notified_spec ⟨11, 5, 3⟩ 0 (by decide)⟩

/-- C7: `init_slot ix` sets bit `ix` of `notified` and clears bit `ix` of
`completed` and of `dropped`, so a following `take_notified` returns a value
with bit `ix` set, whatever the prior page state. -/
theorem init_slot_take_notified (p : WakerPage) (ix : Nat) (h : ix < 64) :
    (WakerPage.init_slot p ix).notified.testBit ix = true ∧
    (WakerPage.init_slot p ix).completed.testBit ix = false ∧
    (WakerPage.init_slot p ix).dropped.testBit ix = false ∧
    (WakerPage.take_notified (WakerPage.init_slot p ix)).1.testBit ix = true := by
  simp [WakerPage.init_slot, WakerPage.take_notified, not64, u64_mask_testBit,
        Nat.one_shiftLeft, Nat.testBit_two_pow, h]

/-- C7 witness: the theorem applied to the page ⟨0, 2 ^ 63 - 1, 2 ^ 63 - 1⟩ at
slot 5, whose completed and dropped bits at 5 start out set. -/
theorem init_slot_take_notified_witness :
    (5 : Nat) < 64 ∧
    ((WakerPage.init_slot ⟨0, 2 ^ 63 - 1, 2 ^ 63 - 1⟩ 5).notified.testBit 5 = true ∧
    (WakerPage.init_slot ⟨0, 2 ^ 63 - 1, 2 ^ 63 - 1⟩ 5).completed.testBit 5 = false ∧
    (WakerPage.init_slot ⟨0, 2 ^ 63 - 1, 2 ^ 63 - 1⟩ 5).dropped.testBit 5 = false ∧
    (WakerPage.take_notified
      (WakerPage.init_slot ⟨0, 2 ^ 63 - 1, 2 ^ 63 - 1⟩ 5)).1.testBit 5 = true) :=
  ⟨by decide, init_slot_take_notified ⟨0, 2 ^ 63 - 1, 2 ^ 63 - 1⟩ 5 (by decide)⟩

/-- C10: every per-slot operation of the waker page touches only bit `i` of
the bitmaps it names — for `j ≠ i` (and `j` a valid slot) all three bitmaps
keep their bit `j` across `notify`, `mark_completed`, `mark_dropped`,
`init_slot` and `clear` — and `take_notified` leaves the `completed` and
`dropped` bitmaps entirely unchanged. -/
theorem per_slot_frame (p : WakerPage) (i j : Nat) (hj : j < 64) (hne : j ≠ i) :
    ((WakerPage.notify p i).notified.testBit j = p.notified.testBit j ∧
     (WakerPage.notify p i).completed = p.completed ∧
     (WakerPage.notify p i).dropped = p.dropped) ∧
    ((WakerPage.mark_completed p i).completed.testBit j = p.completed.testBit j ∧
     (WakerPage.mark_completed p i).notified = p.notified ∧
     (WakerPage.mark_completed p i).dropped = p.dropped) ∧
    ((WakerPage.mark_dropped p i).dropped.testBit j = p.dropped.testBit j ∧
     (WakerPage.mark_dropped p i).notified = p.notified ∧
     (WakerPage.mark_dropped p i).completed = p.completed) ∧
    ((WakerPage.init_slot p i).notified.testBit j = p.notified.testBit j ∧
     (WakerPage.init_slot p i).completed.testBit j = p.completed.testBit j ∧
     (WakerPage.init_slot p i).dropped.testBit j = p.dropped.testBit j) ∧
    ((WakerPage.clear p i).notified.testBit j = p.notified.testBit j ∧
     (WakerPage.clear p i).completed.testBit j = p.completed.testBit j ∧
     (WakerPage.clear p i).dropped.testBit j = p.dropped.testBit j) ∧
    ((WakerPage.take_notified p).2.completed = p.completed ∧
     (WakerPage.take_notified p).2.dropped = p.dropped) := by
  have hne' : i ≠ j := fun hh => hne hh.symm
  refine ⟨⟨?_, rfl, rfl⟩, ⟨?_, rfl, rfl⟩, ⟨?_, rfl, rfl⟩,
          ⟨?_, ?_, ?_⟩, ⟨?_, ?_, ?_⟩, rfl, rfl⟩ <;>
    simp [WakerPage.notify, WakerPage.mark_completed, WakerPage.mark_dropped,
          WakerPage.init_slot, WakerPage.clear, not64, u64_mask_testBit,
          Nat.one_shiftLeft, Nat.testBit_two_pow, hj, hne']

/-- C10 witness: the theorem applied at the page ⟨6, 9, 12⟩, slot 3, bit 5. -/
theorem per_slot_frame_witness :
    ((5 : Nat) < 64 ∧ (5 : Nat) ≠ 3) ∧
    (((WakerPage.notify ⟨6, 9, 12⟩ 3).notified.testBit 5 = (6 : Nat).testBit 5 ∧
     (WakerPage.notify ⟨6, 9, 12⟩ 3).completed = 9 ∧
     (WakerPage.notify ⟨6, 9, 12⟩ 3).dropped = 12) ∧
    ((WakerPage.mark_completed ⟨6, 9, 12⟩ 3).completed.testBit 5 = (9 : Nat).testBit 5 ∧
     (WakerPage.mark_completed ⟨6, 9, 12⟩ 3).notified = 6 ∧
     (WakerPage.mark_completed ⟨6, 9, 12⟩ 3).dropped = 12) ∧
    ((WakerPage.mark_dropped ⟨6, 9, 12⟩ 3).dropped.testBit 5 = (12 : Nat).testBit 5 ∧
     (WakerPage.mark_dropped ⟨6, 9, 12⟩ 3).notified = 6 ∧
     (WakerPage.mark_dropped ⟨6, 9, 12⟩ 3).completed = 9) ∧
    ((WakerPage.init_slot ⟨6, 9, 12⟩ 3).notified.testBit 5 = (6 : Nat).testBit 5 ∧
     (WakerPage.init_slot ⟨6, 9, 12⟩ 3).completed.testBit 5 = (9 : Nat).testBit 5 ∧
     (WakerPage.init_slot ⟨6, 9, 12⟩ 3).dropped.testBit 5 = (12 : Nat).testBit 5) ∧
    ((WakerPage.clear ⟨6, 9, 12⟩ 3).notified.testBit 5 = (6 : Nat).testBit 5 ∧
     (WakerPage.clear ⟨6, 9, 12⟩ 3).completed.testBit 5 = (9 : Nat).testBit 5 ∧
     (WakerPage.clear ⟨6, 9, 12⟩ 3).dropped.testBit 5 = (12 : Nat).testBit 5) ∧
    ((WakerPage.take_notified ⟨6, 9, 12⟩).2.completed = 9 ∧
     (WakerPage.take_notified ⟨6, 9, 12⟩).2.dropped = 12)) :=
  ⟨⟨by decide, by decide⟩, per_slot_frame ⟨6, 9, 12⟩ 3 5 (by decide) (by decide)⟩

/-- The forward alignment offset of address `p` to alignment `a`
(`<*mut u8>::align_offset`): the least `k` with `(p + k) % a = 0`. -/
def align_offset (p a : Nat) : Nat := (a - p % a) % a

/-- `WakerRef::base_ptr`: recover the page base address and the slot index
from a slot-notifier address. -/
def base_ptr (p : Nat) : Nat × Nat :=
  let forward := align_offset p 64
  if forward = 0 then (p, 0) else (p - (64 - forward), 64 - forward)

/-- `WakerPageRef::waker` encodes slot `ix` of the page at `base` as the
address `base + ix`. -/
def waker_addr (base ix : Nat) : Nat := base + ix

/-- C6: for a 64-byte-aligned page base and any slot `i < 64`, decoding the
notifier address `base + i` with `base_ptr` yields exactly `(base, i)`:
the slot-address encoding round-trips. -/
theorem base_ptr_round_trip (base i : Nat) (hb : 64 ∣ base) (hi : i < 64) :
    base_ptr (waker_addr base i) = (base, i) := by
  rcases hb with ⟨k, rfl⟩
  have hmod : (64 * k + i) % 64 = i := by omega
  simp only [base_ptr, align_offset, waker_addr, hmod]
  rcases Nat.eq_zero_or_pos i with hz | hpos
  · subst hz
    simp
  · have h1 : (64 - i) % 64 = 64 - i := by omega
    have h2 : ¬((64 - i) % 64 = 0) := by omega
    simp only [h1, if_neg (by omega : ¬(64 - i = 0)), Prod.mk.injEq]
    constructor <;> omega

/-- C6 witness: the theorem applied at base 128 and slot 5: address 133
decodes to (128, 5). -/
theorem base_ptr_round_trip_witness :
    ((64 : Nat) ∣ 128 ∧ (5 : Nat) < 64) ∧ base_ptr (waker_addr 128 5) = (128, 5) :=
  ⟨⟨by decide, by decide⟩, base_ptr_round_trip 128 5 (by decide) (by decide)⟩

/-- Reference-count events on one waker page.  `cloneHandle` is
`Clone for WakerPageRef` (`fetch_add(1)`); `newNotifier` is
`WakerPageRef::waker` (a clone whose owning wrapper is forgotten);
`cloneNotifier` is `Clone for WakerRef` (clone of a reconstructed page handle,
both wrappers forgotten); `dropHandle` is `Drop for WakerPageRef`
(`fetch_sub(1)`, deallocating when the prior value was 1); `dropNotifier` is
`Drop for WakerRef` (drop of a reconstructed page handle). -/
inductive RcEvent where
  | cloneHandle
  | newNotifier
  | cloneNotifier
  | dropHandle
  | dropNotifier
deriving DecidableEq, Repr

/-- Refcount state of one page together with the ghost counts of live page
handles and live slot notifiers, and the number of deallocations performed. -/
structure RcState where
  refcount : Nat
  liveHandles : Nat
  liveNotifiers : Nat
  deallocs : Nat
deriving DecidableEq, Repr

/-- `WakerPage::new` stores 1 into `refcount` and returns the one live
handle. -/
def rcInit : RcState := ⟨1, 1, 0, 0⟩

/-- One reference-count event: clones and notifier constructions add exactly 1
to the refcount; drops subtract exactly 1, and the drop that observes a prior
value of 1 deallocates the page. -/
def rcStep (s : RcState) (e : RcEvent) : RcState :=
  match e with
  | .cloneHandle =>
      { s with refcount := s.refcount + 1, liveHandles := s.liveHandles + 1 }
  | .newNotifier =>
      { s with refcount := s.refcount + 1, liveNotifiers := s.liveNotifiers + 1 }
  | .cloneNotifier =>
      { s with refcount := s.refcount + 1, liveNotifiers := s.liveNotifiers + 1 }
  | .dropHandle =>
      if s.refcount = 1 then
        ⟨0, s.liveHandles - 1, s.liveNotifiers, s.deallocs + 1⟩
      else
        { s with refcount := s.refcount - 1, liveHandles := s.liveHandles - 1 }
  | .dropNotifier =>
      if s.refcount = 1 then
        ⟨0, s.liveHandles, s.liveNotifiers - 1, s.deallocs + 1⟩
      else
        { s with refcount := s.refcount - 1, liveNotifiers := s.liveNotifiers - 1 }

/-- An event is legal when the object it clones or drops is live: a handle
clone or drop (and a notifier construction, which goes through a live handle)
needs a live handle; a notifier clone or drop needs a live notifier. -/
def rcLegalStep (s : RcState) (e : RcEvent) : Bool :=
  match e with
  | .cloneHandle => 0 < s.liveHandles
  | .newNotifier => 0 < s.liveHandles
  | .cloneNotifier => 0 < s.liveNotifiers
  | .dropHandle => 0 < s.liveHandles
  | .dropNotifier => 0 < s.liveNotifiers

/-- Run a trace of reference-count events. -/
def rcRun (s : RcState) (tr : List RcEvent) : RcState :=
  tr.foldl rcStep s

/-- A trace is legal when every event is legal in the state it runs from. -/
def rcLegalTrace (s : RcState) : List RcEvent → Bool
  | [] => true
  | e :: tr => rcLegalStep s e && rcLegalTrace (rcStep s e) tr

/-- The refcount invariant: the counter equals live handles plus live
notifiers, and the page has been deallocated exactly once as soon as — and
only when — the counter reaches zero. -/
def rcInv (s : RcState) : Prop :=
  s.refcount = s.liveHandles + s.liveNotifiers ∧
  ((s.refcount = 0 ∧ s.deallocs = 1) ∨ (0 < s.refcount ∧ s.deallocs = 0))

theorem rcInv_init : rcInv rcInit := by
  refine ⟨rfl, Or.inr ⟨Nat.one_pos, rfl⟩⟩

theorem rcInv_step (s : RcState) (e : RcEvent) (hInv : rcInv s)
    (hLegal : rcLegalStep s e = true) : rcInv (rcStep s e) := by
  obtain ⟨h1, h2⟩ := hInv
  cases e <;>
    simp only [rcStep, rcLegalStep, decide_eq_true_eq] at hLegal ⊢ <;>
    (try split) <;> simp only [rcInv] <;> simp <;> omega

theorem rcInv_run (tr : List RcEvent) (s : RcState) (hInv : rcInv s)
    (hLegal : rcLegalTrace s tr = true) : rcInv (rcRun s tr) := by
  induction tr generalizing s with
  | nil => exact hInv
  | cons e tr ih =>
      simp only [rcLegalTrace, Bool.and_eq_true] at hLegal
      exact ih (rcStep s e) (rcInv_step s e hInv hLegal.1) hLegal.2

/-- C8: clones and notifier constructions add exactly 1 to the refcount and
drops subtract exactly 1; along every legal trace from a fresh page the
refcount equals live handles plus live notifiers; and a legal trace that drops
every handle and every notifier ends with refcount 0 and exactly one
deallocation. -/
theorem refcount_conservation (tr : List RcEvent) (s : RcState)
    (hLegal : rcLegalTrace rcInit tr = true) :
    rcInit.refcount = 1 ∧
    ((rcStep s .cloneHandle).refcount = s.refcount + 1 ∧
     (rcStep s .newNotifier).refcount = s.refcount + 1 ∧
     (rcStep s .cloneNotifier).refcount = s.refcount + 1) ∧
    (0 < s.refcount →
      (rcStep s .dropHandle).refcount = s.refcount - 1 ∧
      (rcStep s .dropNotifier).refcount = s.refcount - 1) ∧
    (rcRun rcInit tr).refcount =
      (rcRun rcInit tr).liveHandles + (rcRun rcInit tr).liveNotifiers ∧
    ((rcRun rcInit tr).liveHandles = 0 → (rcRun rcInit tr).liveNotifiers = 0 →
      (rcRun rcInit tr).refcount = 0 ∧ (rcRun rcInit tr).deallocs = 1) := by
  have hInv := rcInv_run tr rcInit rcInv_init hLegal
  obtain ⟨h1, h2⟩ := hInv
  refine ⟨rfl, ⟨rfl, rfl, rfl⟩, ?_, h1, ?_⟩
  · intro hpos
    constructor <;> simp only [rcStep] <;> split <;> simp <;> omega
  · intro hH hN
    omega

/-- C8 witness: the legal trace that builds one extra handle and one notifier
from a fresh page and then drops all three objects ends with refcount 0 and
one deallocation; the step equalities are instantiated at the state
⟨3, 2, 1, 0⟩. -/
theorem refcount_conservation_witness :
    rcLegalTrace rcInit
      [.newNotifier, .cloneHandle, .dropNotifier, .dropHandle, .dropHandle] = true ∧
    (rcInit.refcount = 1 ∧
    ((rcStep ⟨3, 2, 1, 0⟩ .cloneHandle).refcount = 3 + 1 ∧
     (rcStep ⟨3, 2, 1, 0⟩ .newNotifier).refcount = 3 + 1 ∧
     (rcStep ⟨3, 2, 1, 0⟩ .cloneNotifier).refcount = 3 + 1) ∧
    (0 < (3 : Nat) →
      (rcStep ⟨3, 2, 1, 0⟩ .dropHandle).refcount = 3 - 1 ∧
      (rcStep ⟨3, 2, 1, 0⟩ .dropNotifier).refcount = 3 - 1) ∧
    (rcRun rcInit
      [.newNotifier, .cloneHandle, .dropNotifier, .dropHandle, .dropHandle]).refcount =
      (rcRun rcInit
        [.newNotifier, .cloneHandle, .dropNotifier, .dropHandle, .dropHandle]).liveHandles +
      (rcRun rcInit
        [.newNotifier, .cloneHandle, .dropNotifier, .dropHandle, .dropHandle]).liveNotifiers ∧
    ((rcRun rcInit
        [.newNotifier, .cloneHandle, .dropNotifier, .dropHandle, .dropHandle]).liveHandles = 0 →
      (rcRun rcInit
        [.newNotifier, .cloneHandle, .dropNotifier, .dropHandle, .dropHandle]).liveNotifiers = 0 →
      (rcRun rcInit
        [.newNotifier, .cloneHandle, .dropNotifier, .dropHandle, .dropHandle]).refcount = 0 ∧
      (rcRun rcInit
        [.newNotifier, .cloneHandle, .dropNotifier, .dropHandle, .dropHandle]).deallocs = 1)) :=
  ⟨by decide,
   refcount_conservation
     [.newNotifier, .cloneHandle, .dropNotifier, .dropHandle, .dropHandle]
     ⟨3, 2, 1, 0⟩ (by decide)⟩

/-! ## UDP peer (`protocols/udp/peer.rs`) -/

/-- Payload bytes (`Bytes`). -/
abbrev Bytes := List Nat

abbrev FileDescriptor := Nat

abbrev MacAddr := Nat

abbrev Ipv4Addr := Nat

/-- Identifier standing for a `Waker` handle stored in a listener. -/
abbrev WakerId := Nat

/-- `ipv4::Endpoint`: an IPv4 address and a 16-bit port. -/
structure Endpoint where
  addr : Ipv4Addr
  port : Nat
deriving DecidableEq, Repr

/-- A UDP socket record: `local` fixed by bind, `remote` fixed by connect. -/
structure Socket where
  «local» : Option Endpoint
  remote : Option Endpoint
deriving DecidableEq, Repr

/-- A per-bound-endpoint listener: the receive queue and the optional
suspended consumer. -/
structure Listener where
  buf : List (Option Endpoint × Bytes)
  waker : Option WakerId
deriving DecidableEq, Repr

/-- The only failure kind used by the UDP peer. -/
inductive Fail where
  | Malformed (details : String)
deriving DecidableEq, Repr

inductive EtherType2 where
  | Arp
  | Ipv4
deriving DecidableEq, Repr

structure Ethernet2Header where
  dst_addr : MacAddr
  src_addr : MacAddr
  ether_type : EtherType2
deriving DecidableEq, Repr

inductive Ipv4Protocol2 where
  | Icmpv4
  | Tcp
  | Udp
deriving DecidableEq, Repr

/-- The fields of `Ipv4Header` the UDP peer reads or sets. -/
structure Ipv4Header where
  src_addr : Ipv4Addr
  dst_addr : Ipv4Addr
  protocol : Ipv4Protocol2
deriving DecidableEq, Repr

/-- `UdpHeader`: optional source port (zero is `none`) and destination
port. -/
structure UdpHeader where
  src_port : Option Nat
  dst_port : Nat
deriving DecidableEq, Repr

structure UdpDatagram where
  ethernet2_hdr : Ethernet2Header
  ipv4_hdr : Ipv4Header
  udp_hdr : UdpHeader
  data : Bytes
deriving DecidableEq, Repr

/-- The runtime and ARP services the peer consumes: `rt.local_link_addr()`,
`rt.local_ipv4_addr()` and `arp.try_query`. -/
structure NetEnv where
  local_link_addr : MacAddr
  local_ipv4_addr : Ipv4Addr
  try_query : Ipv4Addr → Option MacAddr

/-- The state of `Inner`: the socket map, the bound map, the outbound
deferred-send channel (as the list of enqueued requests) and the runtime
transmit path (as the list of transmitted datagrams). -/
structure PeerState where
  sockets : FileDescriptor → Option Socket
  bound : Endpoint → Option Listener
  outgoing : List (Option Endpoint × Endpoint × Bytes)
  transmitted : List UdpDatagram

/-- A freshly constructed peer: no sockets, nothing bound, channel empty. -/
def initPeer : PeerState :=
  { sockets := fun _ => none, bound := fun _ => none, outgoing := [], transmitted := [] }

/-- The Ethernet/IPv4/UDP datagram built by both send paths: ether type IPv4,
source link and IPv4 addresses from the runtime, protocol UDP, source port
the local endpoint's port if any, destination port the remote's port. -/
def mk_udp_datagram (env : NetEnv) (link_addr : MacAddr) (loc : Option Endpoint)
    (remote : Endpoint) (buf : Bytes) : UdpDatagram :=
  { ethernet2_hdr :=
      { dst_addr := link_addr, src_addr := env.local_link_addr,
        ether_type := EtherType2.Ipv4 },
    ipv4_hdr :=
      { src_addr := env.local_ipv4_addr, dst_addr := remote.addr,
        protocol := Ipv4Protocol2.Udp },
    udp_hdr := { src_port := loc.map (fun l => l.port), dst_port := remote.port },
    data := buf }

/-- The capacity of the outbound deferred-send channel
(`generic_channel(16)`). -/
def OUTGOING_CAPACITY : Nat := 16

/-- `Inner::send_datagram`: if `arp.try_query` has the link address, transmit
immediately; otherwise `try_send` `(local, remote, buf)` on the bounded
capacity-16 outbound channel and `unwrap` the result — a full channel makes
`try_send` fail and the `unwrap` panic, modelled as `none`.  Whenever it
returns at all, it returns `Ok`. -/
def send_datagram (env : NetEnv) (s : PeerState) (buf : Bytes)
    (loc : Option Endpoint) (remote : Endpoint) :
    Option (PeerState × Except Fail Unit) :=
  match env.try_query remote.addr with
  | some link_addr =>
      some ({ s with
          transmitted := s.transmitted ++ [mk_udp_datagram env link_addr loc remote buf] },
        Except.ok ())
  | none =>
      if s.outgoing.length < OUTGOING_CAPACITY then
        some ({ s with outgoing := s.outgoing ++ [(loc, remote, buf)] }, Except.ok ())
      else
        none

/-- One iteration of `UdpPeer::background` on a received channel item: await
`arp.query(remote.addr)`; on success transmit the datagram, on failure log
and discard (modelled as `none`). -/
def background_step (env : NetEnv) (query : Ipv4Addr → Except Fail MacAddr)
    (req : Option Endpoint × Endpoint × Bytes) : Option UdpDatagram :=
  match query req.2.1.addr with
  | Except.ok link_addr => some (mk_udp_datagram env link_addr req.1 req.2.1 req.2.2)
  | Except.error _ => none

/-- `UdpPeer::socket`: insert a fresh socket with no local and no remote at
the descriptor allocated by the file table. -/
def UdpPeer.socket (s : PeerState) (fd : FileDescriptor) : PeerState :=
  { s with sockets := fun x => if x = fd then some ⟨none, none⟩ else s.sockets x }

/-- `UdpPeer::bind`: fail if the endpoint is already bound; fail if the
descriptor is unknown or its socket already has a local; otherwise set the
socket's local and insert an empty listener at the endpoint. -/
def UdpPeer.bind (s : PeerState) (fd : FileDescriptor) (addr : Endpoint) :
    PeerState × Except Fail Unit :=
  if (s.bound addr).isSome then
    (s, Except.error (Fail.Malformed ("Port already listening")))
  else
    match s.sockets fd with
    | some sock =>
        match sock.«local» with
        | none =>
            ({ s with
                sockets := fun x =>
                  if x = fd then some { sock with «local» := some addr } else s.sockets x,
                bound := fun e =>
                  if e = addr then some ⟨[], none⟩ else s.bound e },
             Except.ok ())
        | some _ => (s, Except.error (Fail.Malformed ("Invalid file descriptor on bind")))
    | none => (s, Except.error (Fail.Malformed ("Invalid file descriptor on bind")))

/-- `UdpPeer::connect`: fail if the descriptor is unknown or its socket
already has a remote; otherwise set the socket's remote. -/
def UdpPeer.connect (s : PeerState) (fd : FileDescriptor) (addr : Endpoint) :
    PeerState × Except Fail Unit :=
  match s.sockets fd with
  | some sock =>
      match sock.remote with
      | none =>
          ({ s with
              sockets := fun x =>
                if x = fd then some { sock with remote := some addr } else s.sockets x },
           Except.ok ())
      | some _ => (s, Except.error (Fail.Malformed ("Invalid file descriptor on connect")))
  | none => (s, Except.error (Fail.Malformed ("Invalid file descriptor on connect")))

/-- `UdpPeer::receive` after the (external) UDP header parse: demultiplex on
the local endpoint `(dst_addr, dst_port)`; if nothing is bound there fail
`Malformed "Port not bound"`; otherwise push `(remote, data)` at the
listener's tail and take-and-wake its waker (returned as the list of woken
wakers). -/
def UdpPeer.receive (s : PeerState) (ipv4_header : Ipv4Header) (hdr : UdpHeader)
    (data : Bytes) : PeerState × List WakerId × Except Fail Unit :=
  let loc : Endpoint := ⟨ipv4_header.dst_addr, hdr.dst_port⟩
  let remote : Option Endpoint := hdr.src_port.map fun p => ⟨ipv4_header.src_addr, p⟩
  match s.bound loc with
  | none => (s, [], Except.error (Fail.Malformed ("Port not bound")))
  | some l =>
      ({ s with
          bound := fun e =>
            if e = loc then some ⟨l.buf ++ [(remote, data)], none⟩ else s.bound e },
       l.waker.toList, Except.ok ())

/-- `UdpPeer::push`: requires the socket's remote to be set; dispatches to
`send_datagram` with the socket's optional local and its remote (inheriting
its possible channel-full panic). -/
def UdpPeer.push (env : NetEnv) (s : PeerState) (fd : FileDescriptor) (buf : Bytes) :
    Option (PeerState × Except Fail Unit) :=
  match s.sockets fd with
  | some sock =>
      match sock.remote with
      | some remote => send_datagram env s buf sock.«local» remote
      | none => some (s, Except.error (Fail.Malformed ("Invalid file descriptor on push")))
  | none => some (s, Except.error (Fail.Malformed ("Invalid file descriptor on push")))

/-- `UdpPeer::pushto`: requires the socket to exist; dispatches to
`send_datagram` with the socket's optional local and the supplied destination
(inheriting its possible channel-full panic). -/
def UdpPeer.pushto (env : NetEnv) (s : PeerState) (fd : FileDescriptor) (buf : Bytes)
    (dst : Endpoint) : Option (PeerState × Except Fail Unit) :=
  match s.sockets fd with
  | some sock => send_datagram env s buf sock.«local» dst
  | none => some (s, Except.error (Fail.Malformed ("Invalid file descriptor on pushto")))

/-- `UdpPeer::pop`: on a socket with a local endpoint, capture the bound
listener (the source performs an unchecked `unwrap` on this lookup, modelled
by returning the looked-up `Option`); otherwise store
`Malformed "Invalid file descriptor"`. -/
def UdpPeer.pop (s : PeerState) (fd : FileDescriptor) : Except Fail (Option Listener) :=
  match s.sockets fd with
  | some sock =>
      match sock.«local» with
      | some loc => Except.ok (s.bound loc)
      | none => Except.error (Fail.Malformed ("Invalid file descriptor"))
  | none => Except.error (Fail.Malformed ("Invalid file descriptor"))

/-- `UdpPeer::close`: remove the socket; if it was bound, remove its
listener. -/
def UdpPeer.close (s : PeerState) (fd : FileDescriptor) : PeerState × Except Fail Unit :=
  match s.sockets fd with
  | none => (s, Except.error (Fail.Malformed ("Invalid file descriptor")))
  | some sock =>
      let s1 := { s with sockets := fun x => if x = fd then none else s.sockets x }
      match sock.«local» with
      | some loc =>
          ({ s1 with bound := fun e => if e = loc then none else s1.bound e },
           Except.ok ())
      | none => (s1, Except.ok ())

/-- `PopFuture::poll` on a captured listener: take the queue's front item if
any (resolving with it), else record the polling context's waker and stay
pending. -/
def poll_pop (l : Listener) (w : WakerId) : Listener × Option (Option Endpoint × Bytes) :=
  match l.buf with
  | [] => ({ l with waker := some w }, none)
  | r :: rest => ({ l with buf := rest }, some r)

/-- C4: `bind` fails with `Port already listening` when the endpoint is
already in the bound map (in particular after a successful bind, a second
bind to the same endpoint from any descriptor fails that way and changes
nothing); it fails with `Invalid file descriptor on bind` when the
descriptor is unknown or its socket already has a local endpoint; and on
success it sets the socket's local to the endpoint and inserts an empty
listener there. -/
theorem bind_spec (s : PeerState) (fd : FileDescriptor) (addr : Endpoint) :
    (∀ l, s.bound addr = some l →
      UdpPeer.bind s fd addr = (s, Except.error (Fail.Malformed ("Port already listening")))) ∧
    (s.bound addr = none → s.sockets fd = none →
      UdpPeer.bind s fd addr =
        (s, Except.error (Fail.Malformed ("Invalid file descriptor on bind")))) ∧
    (∀ sock ep, s.bound addr = none → s.sockets fd = some sock → sock.«local» = some ep →
      UdpPeer.bind s fd addr =
        (s, Except.error (Fail.Malformed ("Invalid file descriptor on bind")))) ∧
    (∀ sock, s.bound addr = none → s.sockets fd = some sock → sock.«local» = none →
      ((UdpPeer.bind s fd addr).2 = Except.ok () ∧
       (UdpPeer.bind s fd addr).1.sockets fd = some ⟨some addr, sock.remote⟩ ∧
       (UdpPeer.bind s fd addr).1.bound addr = some ⟨[], none⟩ ∧
       (∀ fd2, UdpPeer.bind (UdpPeer.bind s fd addr).1 fd2 addr =
         ((UdpPeer.bind s fd addr).1,
          Except.error (Fail.Malformed ("Port already listening")))))) := by
  refine ⟨?_, ?_, ?_, ?_⟩
  · intro l hb
    simp [UdpPeer.bind, hb]
  · intro hb hs
    simp [UdpPeer.bind, hb, hs]
  · intro sock ep hb hs hl
    simp [UdpPeer.bind, hb, hs, hl]
  · intro sock hb hs hl
    refine ⟨?_, ?_, ?_, ?_⟩
    · simp [UdpPeer.bind, hb, hs, hl]
    · simp [UdpPeer.bind, hb, hs, hl]
    · simp [UdpPeer.bind, hb, hs, hl]
    · intro fd2
      have h1 : (UdpPeer.bind s fd addr).1.bound addr = some ⟨[], none⟩ := by
        simp [UdpPeer.bind, hb, hs, hl]
      generalize hgen : (UdpPeer.bind s fd addr).1 = s1 at h1 ⊢
      simp [UdpPeer.bind, h1]

/-- C4 witness: on a state with sockets 0 and 1 (neither bound), binding 0 to
10.0.0.1:9000 succeeds, and a second bind of descriptor 1 to the same
endpoint fails with `Port already listening`. -/
theorem bind_spec_witness :
    ((UdpPeer.socket (UdpPeer.socket initPeer 0) 1).bound ⟨10, 9000⟩ = none ∧
     (UdpPeer.socket (UdpPeer.socket initPeer 0) 1).sockets 0 = some ⟨none, none⟩ ∧
     (Socket.mk none none).«local» = none) ∧
    ((UdpPeer.bind (UdpPeer.socket (UdpPeer.socket initPeer 0) 1) 0 ⟨10, 9000⟩).2 =
       Except.ok () ∧
     (UdpPeer.bind (UdpPeer.socket (UdpPeer.socket initPeer 0) 1) 0
        ⟨10, 9000⟩).1.sockets 0 = some ⟨some ⟨10, 9000⟩, none⟩ ∧
     (UdpPeer.bind (UdpPeer.socket (UdpPeer.socket initPeer 0) 1) 0
        ⟨10, 9000⟩).1.bound ⟨10, 9000⟩ = some ⟨[], none⟩ ∧
     (∀ fd2, UdpPeer.bind
         (UdpPeer.bind (UdpPeer.socket (UdpPeer.socket initPeer 0) 1) 0 ⟨10, 9000⟩).1
         fd2 ⟨10, 9000⟩ =
       ((UdpPeer.bind (UdpPeer.socket (UdpPeer.socket initPeer 0) 1) 0 ⟨10, 9000⟩).1,
        Except.error (Fail.Malformed ("Port already listening"))))) :=
  ⟨⟨rfl, rfl, rfl⟩,
   (bind_spec (UdpPeer.socket (UdpPeer.socket initPeer 0) 1) 0 ⟨10, 9000⟩).2.2.2
     ⟨none, none⟩ rfl rfl rfl⟩

/-- C5: on an existing socket whose remote endpoint was never set by
`connect`, `push` fails with `Invalid file descriptor on push` and changes
nothing, while `pushto` on the very same socket (with the outbound channel
not full, so `try_send` cannot panic) returns `Ok`. -/
theorem push_without_connect (env : NetEnv) (s : PeerState) (fd : FileDescriptor)
    (buf : Bytes) (dst : Endpoint) (sock : Socket)
    (hs : s.sockets fd = some sock) (hr : sock.remote = none)
    (hcap : s.outgoing.length < OUTGOING_CAPACITY) :
    UdpPeer.push env s fd buf =
      some (s, Except.error (Fail.Malformed ("Invalid file descriptor on push"))) ∧
    ∃ s1, UdpPeer.pushto env s fd buf dst = some (s1, Except.ok ()) := by
  constructor
  · simp [UdpPeer.push, hs, hr]
  · rcases hq : env.try_query dst.addr with _ | link
    · exact ⟨{ s with outgoing := s.outgoing ++ [(sock.«local», dst, buf)] },
        by simp [UdpPeer.pushto, hs, send_datagram, hq, hcap]⟩
    · exact ⟨{ s with transmitted :=
          s.transmitted ++ [mk_udp_datagram env link sock.«local» dst buf] },
        by simp [UdpPeer.pushto, hs, send_datagram, hq]⟩

/-- C5 witness: the theorem applied to a one-socket state (descriptor 0,
never connected, outbound channel empty) with an empty ARP cache and
destination 10.0.0.2:7. -/
theorem push_without_connect_witness :
    ((UdpPeer.socket initPeer 0).sockets 0 = some ⟨none, none⟩ ∧
     (Socket.mk none none).remote = none ∧
     (UdpPeer.socket initPeer 0).outgoing.length < OUTGOING_CAPACITY) ∧
    (UdpPeer.push ⟨1, 2, fun _ => none⟩ (UdpPeer.socket initPeer 0) 0 [104, 105] =
      some (UdpPeer.socket initPeer 0,
        Except.error (Fail.Malformed ("Invalid file descriptor on push"))) ∧
    ∃ s1, UdpPeer.pushto ⟨1, 2, fun _ => none⟩ (UdpPeer.socket initPeer 0) 0 [104, 105]
        ⟨10, 7⟩ = some (s1, Except.ok ())) :=
  ⟨⟨rfl, rfl, by decide⟩,
   push_without_connect ⟨1, 2, fun _ => none⟩ (UdpPeer.socket initPeer 0) 0
     [104, 105] ⟨10, 7⟩ ⟨none, none⟩ rfl rfl (by decide)⟩

/-- C3: `receive` into an unbound local endpoint `(dst_addr, dst_port)` fails
`Malformed "Port not bound"` and leaves the state (in particular every
listener queue) unchanged; into a bound one it returns `Ok`, appends
`(remote, data)` at that listener's tail, clears and wakes the recorded
consumer if one is present, leaves every other listener unchanged, and a pop
future polled on the freshly filled queue resolves with exactly the enqueued
pair. -/
theorem receive_spec (s : PeerState) (ipv4_header : Ipv4Header) (hdr : UdpHeader)
    (data : Bytes) :
    (s.bound ⟨ipv4_header.dst_addr, hdr.dst_port⟩ = none →
      UdpPeer.receive s ipv4_header hdr data =
        (s, [], Except.error (Fail.Malformed ("Port not bound")))) ∧
    (∀ l, s.bound ⟨ipv4_header.dst_addr, hdr.dst_port⟩ = some l →
      ((UdpPeer.receive s ipv4_header hdr data).2.2 = Except.ok () ∧
       (UdpPeer.receive s ipv4_header hdr data).1.bound
           ⟨ipv4_header.dst_addr, hdr.dst_port⟩ =
         some ⟨l.buf ++
             [(hdr.src_port.map fun p => ⟨ipv4_header.src_addr, p⟩, data)], none⟩ ∧
       (∀ e, e ≠ (⟨ipv4_header.dst_addr, hdr.dst_port⟩ : Endpoint) →
         (UdpPeer.receive s ipv4_header hdr data).1.bound e = s.bound e) ∧
       (UdpPeer.receive s ipv4_header hdr data).1.sockets = s.sockets ∧
       (UdpPeer.receive s ipv4_header hdr data).2.1 = l.waker.toList ∧
       (l.buf = [] → ∀ w,
         poll_pop ⟨l.buf ++
             [(hdr.src_port.map fun p => ⟨ipv4_header.src_addr, p⟩, data)], none⟩ w =
           (⟨[], none⟩,
            some (hdr.src_port.map fun p => ⟨ipv4_header.src_addr, p⟩, data))))) := by
  constructor
  · intro hb
    simp [UdpPeer.receive, hb]
  · intro l hb
    refine ⟨?_, ?_, ?_, ?_, ?_, ?_⟩
    · simp [UdpPeer.receive, hb]
    · simp [UdpPeer.receive, hb]
    · intro e he
      simp [UdpPeer.receive, hb, he]
    · simp [UdpPeer.receive, hb]
    · simp [UdpPeer.receive, hb]
    · intro hbuf w
      rw [hbuf]
      rfl

/-- C3 witness: receiving a datagram for 10.0.0.1:9000 on a state where that
endpoint is bound with an empty queue and a suspended consumer (waker 42):
the enqueue, the wake and the subsequent pop resolution, instantiated from
the theorem. -/
theorem receive_spec_witness :
    (UdpPeer.bind (UdpPeer.socket initPeer 0) 0 ⟨10, 9000⟩).1.bound ⟨10, 9000⟩ =
        some ⟨[], none⟩ ∧
    ((UdpPeer.receive (UdpPeer.bind (UdpPeer.socket initPeer 0) 0 ⟨10, 9000⟩).1
        ⟨20, 10, Ipv4Protocol2.Udp⟩ ⟨some 7, 9000⟩ [104]).2.2 = Except.ok () ∧
     (UdpPeer.receive (UdpPeer.bind (UdpPeer.socket initPeer 0) 0 ⟨10, 9000⟩).1
        ⟨20, 10, Ipv4Protocol2.Udp⟩ ⟨some 7, 9000⟩ [104]).1.bound ⟨10, 9000⟩ =
       some ⟨[] ++ [((some 7 : Option Nat).map fun p => ⟨(20 : Nat), p⟩, [104])], none⟩ ∧
     (∀ e, e ≠ (⟨10, 9000⟩ : Endpoint) →
       (UdpPeer.receive (UdpPeer.bind (UdpPeer.socket initPeer 0) 0 ⟨10, 9000⟩).1
          ⟨20, 10, Ipv4Protocol2.Udp⟩ ⟨some 7, 9000⟩ [104]).1.bound e =
        (UdpPeer.bind (UdpPeer.socket initPeer 0) 0 ⟨10, 9000⟩).1.bound e) ∧
     (UdpPeer.receive (UdpPeer.bind (UdpPeer.socket initPeer 0) 0 ⟨10, 9000⟩).1
        ⟨20, 10, Ipv4Protocol2.Udp⟩ ⟨some 7, 9000⟩ [104]).1.sockets =
       (UdpPeer.bind (UdpPeer.socket initPeer 0) 0 ⟨10, 9000⟩).1.sockets ∧
     (UdpPeer.receive (UdpPeer.bind (UdpPeer.socket initPeer 0) 0 ⟨10, 9000⟩).1
        ⟨20, 10, Ipv4Protocol2.Udp⟩ ⟨some 7, 9000⟩ [104]).2.1 =
       (Option.none (α := WakerId)).toList ∧
     (([] : List (Option Endpoint × Bytes)) = [] → ∀ w,
       poll_pop ⟨[] ++ [((some 7 : Option Nat).map fun p => ⟨(20 : Nat), p⟩, [104])], none⟩ w =
         (⟨[], none⟩, some ((some 7 : Option Nat).map fun p => ⟨(20 : Nat), p⟩, [104])))) :=
  ⟨rfl,
   (receive_spec (UdpPeer.bind (UdpPeer.socket initPeer 0) 0 ⟨10, 9000⟩).1
      ⟨20, 10, Ipv4Protocol2.Udp⟩ ⟨some 7, 9000⟩ [104]).2 ⟨[], none⟩ rfl⟩

/-- C2: when `try_query` has the remote's link address, `send_datagram`
transmits the constructed Ethernet/IPv4/UDP datagram immediately (source port
the local's port if any, destination port the remote's) and enqueues nothing;
when `try_query` comes back empty and the channel is not full, it enqueues
`(local, remote, payload)` and returns `Ok` without transmitting (a full
channel panics the `try_send` unwrap instead), and the background task step
transmits the same datagram once `arp.query` resolves.  `push` and `pushto`
dispatch to this dual-path sender. -/
theorem dual_path_send (env : NetEnv) (s : PeerState) (buf : Bytes)
    (loc : Option Endpoint) (remote dst : Endpoint) (fd : FileDescriptor)
    (link_addr : MacAddr) (query : Ipv4Addr → Except Fail MacAddr) :
    (env.try_query remote.addr = some link_addr →
      (send_datagram env s buf loc remote =
        some ({ s with transmitted :=
            s.transmitted ++ [mk_udp_datagram env link_addr loc remote buf] },
          Except.ok ()) ∧
       (mk_udp_datagram env link_addr loc remote buf).udp_hdr =
         ⟨loc.map fun l => l.port, remote.port⟩)) ∧
    (env.try_query remote.addr = none →
      ((s.outgoing.length < OUTGOING_CAPACITY →
        send_datagram env s buf loc remote =
          some ({ s with outgoing := s.outgoing ++ [(loc, remote, buf)] },
            Except.ok ())) ∧
       (OUTGOING_CAPACITY ≤ s.outgoing.length →
        send_datagram env s buf loc remote = none) ∧
       (query remote.addr = Except.ok link_addr →
         background_step env query (loc, remote, buf) =
           some (mk_udp_datagram env link_addr loc remote buf)))) ∧
    (∀ sock, s.sockets fd = some sock → sock.remote = some remote →
      UdpPeer.push env s fd buf = send_datagram env s buf sock.«local» remote) ∧
    (∀ sock, s.sockets fd = some sock →
      UdpPeer.pushto env s fd buf dst = send_datagram env s buf sock.«local» dst) := by
  refine ⟨?_, ?_, ?_, ?_⟩
  · intro hq
    refine ⟨?_, rfl⟩
    simp [send_datagram, hq]
  · intro hq
    refine ⟨?_, ?_, ?_⟩
    · intro hcap
      simp [send_datagram, hq, hcap]
    · intro hfull
      simp [send_datagram, hq, Nat.not_lt.mpr hfull]
    · intro hquery
      simp [background_step, hquery]
  · intro sock hs hr
    simp [UdpPeer.push, hs, hr]
  · intro sock hs
    simp [UdpPeer.pushto, hs]

/-- C2 witness: with link address 77 cached for 10.0.0.2, the fast path of
the theorem instantiated on the empty state; the hypotheses are discharged on
the concrete resolver. -/
theorem dual_path_send_witness :
    ((⟨1, 2, fun a => if a = 10 then some 77 else none⟩ : NetEnv).try_query 10 =
      some 77) ∧
    (send_datagram ⟨1, 2, fun a => if a = 10 then some 77 else none⟩ initPeer [104]
        (some ⟨3, 4⟩) ⟨10, 7⟩ =
      some ({ initPeer with transmitted :=
          initPeer.transmitted ++
            [mk_udp_datagram ⟨1, 2, fun a => if a = 10 then some 77 else none⟩ 77
              (some ⟨3, 4⟩) ⟨10, 7⟩ [104]] },
        Except.ok ()) ∧
     (mk_udp_datagram ⟨1, 2, fun a => if a = 10 then some 77 else none⟩ 77
        (some ⟨3, 4⟩) ⟨10, 7⟩ [104]).udp_hdr =
       ⟨(some (⟨3, 4⟩ : Endpoint)).map fun l => l.port, (7 : Nat)⟩) :=
  ⟨rfl,
   (dual_path_send ⟨1, 2, fun a => if a = 10 then some 77 else none⟩ initPeer [104]
      (some ⟨3, 4⟩) ⟨10, 7⟩ ⟨10, 7⟩ 0 77 (fun _ => Except.error (Fail.Malformed ("x")))).1
     rfl⟩

/-- The bound-listener invariant: every socket with a local endpoint has a
listener registered there, and no two distinct sockets share a local
endpoint. -/
def BoundInv (s : PeerState) : Prop :=
  (∀ fd sock ep, s.sockets fd = some sock → sock.«local» = some ep →
    (s.bound ep).isSome = true) ∧
  (∀ fd1 fd2 sock1 sock2 ep, s.sockets fd1 = some sock1 → s.sockets fd2 = some sock2 →
    sock1.«local» = some ep → sock2.«local» = some ep → fd1 = fd2)

theorem BoundInv_initPeer : BoundInv initPeer := by
  constructor
  · intro fd sock ep hs
    simp [initPeer] at hs
  · intro fd1 fd2 sock1 sock2 ep h1
    simp [initPeer] at h1

theorem BoundInv_socket (s : PeerState) (fd : FileDescriptor) (hInv : BoundInv s) :
    BoundInv (UdpPeer.socket s fd) := by
  obtain ⟨h1, h2⟩ := hInv
  constructor
  · intro fd' sock ep hs hl
    simp only [UdpPeer.socket] at hs
    by_cases hfd : fd' = fd
    · rw [if_pos hfd] at hs
      cases hs
      cases hl
    · rw [if_neg hfd] at hs
      exact h1 fd' sock ep hs hl
  · intro fd1 fd2 sock1 sock2 ep hs1 hs2 hl1 hl2
    simp only [UdpPeer.socket] at hs1 hs2
    by_cases hfd1 : fd1 = fd
    · rw [if_pos hfd1] at hs1
      cases hs1
      cases hl1
    · rw [if_neg hfd1] at hs1
      by_cases hfd2 : fd2 = fd
      · rw [if_pos hfd2] at hs2
        cases hs2
        cases hl2
      · rw [if_neg hfd2] at hs2
        exact h2 fd1 fd2 sock1 sock2 ep hs1 hs2 hl1 hl2

theorem BoundInv_bind (s : PeerState) (fd : FileDescriptor) (addr : Endpoint)
    (hInv : BoundInv s) : BoundInv (UdpPeer.bind s fd addr).1 := by
  obtain ⟨h1, h2⟩ := hInv
  rcases hb : s.bound addr with _ | l
  · rcases hs : s.sockets fd with _ | sock
    · simpa [UdpPeer.bind, hb, hs] using And.intro h1 h2
    · rcases hl : sock.«local» with _ | ep0
      · simp only [UdpPeer.bind, hb, hs, hl, Option.isSome_none, Bool.false_eq_true,
                   if_false]
        constructor
        · intro fd' sock' ep hs' hl'
          simp only at hs' ⊢
          by_cases hfd : fd' = fd
          · rw [if_pos hfd] at hs'
            cases hs'
            simp only at hl'
            cases hl'
            simp
          · rw [if_neg hfd] at hs'
            by_cases hep : ep = addr
            · simp [hep]
            · simp only [if_neg hep]
              exact h1 fd' sock' ep hs' hl'
        · intro fd1 fd2 sock1 sock2 ep hs1 hs2 hl1 hl2
          simp only at hs1 hs2
          by_cases hfd1 : fd1 = fd
          · by_cases hfd2 : fd2 = fd
            · rw [hfd1, hfd2]
            · rw [if_pos hfd1] at hs1
              rw [if_neg hfd2] at hs2
              cases hs1
              simp only at hl1
              cases hl1
              have := h1 fd2 sock2 addr hs2 hl2
              rw [hb] at this
              simp at this
          · by_cases hfd2 : fd2 = fd
            · rw [if_neg hfd1] at hs1
              rw [if_pos hfd2] at hs2
              cases hs2
              simp only at hl2
              cases hl2
              have := h1 fd1 sock1 addr hs1 hl1
              rw [hb] at this
              simp at this
            · rw [if_neg hfd1] at hs1
              rw [if_neg hfd2] at hs2
              exact h2 fd1 fd2 sock1 sock2 ep hs1 hs2 hl1 hl2
      · simpa [UdpPeer.bind, hb, hs, hl] using And.intro h1 h2
  · simpa [UdpPeer.bind, hb] using And.intro h1 h2

theorem BoundInv_connect (s : PeerState) (fd : FileDescriptor) (addr : Endpoint)
    (hInv : BoundInv s) : BoundInv (UdpPeer.connect s fd addr).1 := by
  obtain ⟨h1, h2⟩ := hInv
  rcases hs : s.sockets fd with _ | sock
  · simpa [UdpPeer.connect, hs] using And.intro h1 h2
  · rcases hr : sock.remote with _ | r
    · simp only [UdpPeer.connect, hs, hr]
      constructor
      · intro fd' sock' ep hs' hl'
        simp only at hs' ⊢
        by_cases hfd : fd' = fd
        · rw [if_pos hfd] at hs'
          cases hs'
          simp only at hl'
          exact h1 fd sock ep (hfd ▸ hs) hl'
        · rw [if_neg hfd] at hs'
          exact h1 fd' sock' ep hs' hl'
      · intro fd1 fd2 sock1 sock2 ep hs1 hs2 hl1 hl2
        simp only at hs1 hs2
        by_cases hfd1 : fd1 = fd <;> by_cases hfd2 : fd2 = fd
        · rw [hfd1, hfd2]
        · rw [if_pos hfd1] at hs1
          rw [if_neg hfd2] at hs2
          cases hs1
          simp only at hl1
          exact h2 fd1 fd2 sock sock2 ep (hfd1 ▸ hs) hs2 hl1 hl2
        · rw [if_neg hfd1] at hs1
          rw [if_pos hfd2] at hs2
          cases hs2
          simp only at hl2
          exact h2 fd1 fd2 sock1 sock ep hs1 (hfd2 ▸ hs) hl1 hl2
        · rw [if_neg hfd1] at hs1
          rw [if_neg hfd2] at hs2
          exact h2 fd1 fd2 sock1 sock2 ep hs1 hs2 hl1 hl2
    · simpa [UdpPeer.connect, hs, hr] using And.intro h1 h2

theorem BoundInv_close (s : PeerState) (fd : FileDescriptor) (hInv : BoundInv s) :
    BoundInv (UdpPeer.close s fd).1 := by
  obtain ⟨h1, h2⟩ := hInv
  rcases hs : s.sockets fd with _ | sock
  · simpa [UdpPeer.close, hs] using And.intro h1 h2
  · rcases hl : sock.«local» with _ | loc
    · simp only [UdpPeer.close, hs, hl]
      constructor
      · intro fd' sock' ep hs' hl'
        simp only at hs' ⊢
        by_cases hfd : fd' = fd
        · rw [if_pos hfd] at hs'
          cases hs'
        · rw [if_neg hfd] at hs'
          exact h1 fd' sock' ep hs' hl'
      · intro fd1 fd2 sock1 sock2 ep hs1 hs2 hl1 hl2
        simp only at hs1 hs2
        by_cases hfd1 : fd1 = fd
        · rw [if_pos hfd1] at hs1
          cases hs1
        · by_cases hfd2 : fd2 = fd
          · rw [if_pos hfd2] at hs2
            cases hs2
          · rw [if_neg hfd1] at hs1
            rw [if_neg hfd2] at hs2
            exact h2 fd1 fd2 sock1 sock2 ep hs1 hs2 hl1 hl2
    · simp only [UdpPeer.close, hs, hl]
      constructor
      · intro fd' sock' ep hs' hl'
        simp only at hs' ⊢
        by_cases hfd : fd' = fd
        · rw [if_pos hfd] at hs'
          cases hs'
        · rw [if_neg hfd] at hs'
          by_cases hep : ep = loc
          · exfalso
            have heq := h2 fd' fd sock' sock ep hs' hs hl' (hep ▸ hl)
            exact hfd heq
          · rw [if_neg hep]
            exact h1 fd' sock' ep hs' hl'
      · intro fd1 fd2 sock1 sock2 ep hs1 hs2 hl1 hl2
        simp only at hs1 hs2
        by_cases hfd1 : fd1 = fd
        · rw [if_pos hfd1] at hs1
          cases hs1
        · by_cases hfd2 : fd2 = fd
          · rw [if_pos hfd2] at hs2
            cases hs2
          · rw [if_neg hfd1] at hs1
            rw [if_neg hfd2] at hs2
            exact h2 fd1 fd2 sock1 sock2 ep hs1 hs2 hl1 hl2

theorem BoundInv_receive (s : PeerState) (ipv4_header : Ipv4Header) (hdr : UdpHeader)
    (data : Bytes) (hInv : BoundInv s) :
    BoundInv (UdpPeer.receive s ipv4_header hdr data).1 := by
  obtain ⟨h1, h2⟩ := hInv
  rcases hb : s.bound ⟨ipv4_header.dst_addr, hdr.dst_port⟩ with _ | l
  · simpa [UdpPeer.receive, hb] using And.intro h1 h2
  · simp only [UdpPeer.receive, hb]
    constructor
    · intro fd sock ep hs hl
      simp only at hs ⊢
      by_cases hep : ep = (⟨ipv4_header.dst_addr, hdr.dst_port⟩ : Endpoint)
      · simp [hep]
      · rw [if_neg hep]
        exact h1 fd sock ep hs hl
    · intro fd1 fd2 sock1 sock2 ep hs1 hs2 hl1 hl2
      exact h2 fd1 fd2 sock1 sock2 ep hs1 hs2 hl1 hl2

/-- The UDP peer operations whose composition C9 quantifies over. -/
inductive UdpOp where
  | opSocket (fd : FileDescriptor)
  | opBind (fd : FileDescriptor) (addr : Endpoint)
  | opConnect (fd : FileDescriptor) (addr : Endpoint)
  | opClose (fd : FileDescriptor)
  | opReceive (ipv4_header : Ipv4Header) (hdr : UdpHeader) (data : Bytes)

/-- The state reached by one peer operation (results discarded). -/
def applyOp (s : PeerState) : UdpOp → PeerState
  | .opSocket fd => UdpPeer.socket s fd
  | .opBind fd addr => (UdpPeer.bind s fd addr).1
  | .opConnect fd addr => (UdpPeer.connect s fd addr).1
  | .opClose fd => (UdpPeer.close s fd).1
  | .opReceive ipv4_header hdr data => (UdpPeer.receive s ipv4_header hdr data).1

/-- The state reached by a sequence of peer operations from a fresh peer. -/
def runOps (ops : List UdpOp) : PeerState := ops.foldl applyOp initPeer

/-- C9: after any sequence of socket/bind/connect/close/receive operations,
every socket whose local endpoint is set has a listener registered in the
bound map, so the unchecked listener lookup inside `pop` on a bound socket
never comes back empty. -/
theorem pop_listener_always_bound :
    BoundInv initPeer ∧
    (∀ s op, BoundInv s → BoundInv (applyOp s op)) ∧
    (∀ ops, BoundInv (runOps ops)) ∧
    (∀ s, BoundInv s → ∀ fd r, UdpPeer.pop s fd = Except.ok r → r.isSome = true) ∧
    (∀ ops fd r, UdpPeer.pop (runOps ops) fd = Except.ok r → r.isSome = true) := by
  have hstep : ∀ s op, BoundInv s → BoundInv (applyOp s op) := by
    intro s op hInv
    cases op with
    | opSocket fd => exact BoundInv_socket s fd hInv
    | opBind fd addr => exact BoundInv_bind s fd addr hInv
    | opConnect fd addr => exact BoundInv_connect s fd addr hInv
    | opClose fd => exact BoundInv_close s fd hInv
    | opReceive ipv4_header hdr data => exact BoundInv_receive s ipv4_header hdr data hInv
  have hrun : ∀ ops, BoundInv (runOps ops) := by
    intro ops
    suffices hgen : ∀ (l : List UdpOp) (s : PeerState),
        BoundInv s → BoundInv (List.foldl applyOp s l) from
      hgen ops initPeer BoundInv_initPeer
    intro ops
    induction ops with
    | nil => exact fun s h => h
    | cons op ops ih => exact fun s h => ih (applyOp s op) (hstep s op h)
  have hpop : ∀ s, BoundInv s → ∀ fd r, UdpPeer.pop s fd = Except.ok r → r.isSome = true := by
    intro s hInv fd r h
    rcases hs : s.sockets fd with _ | sock
    · simp [UdpPeer.pop, hs] at h
    · rcases hl : sock.«local» with _ | loc
      · simp [UdpPeer.pop, hs, hl] at h
      · simp only [UdpPeer.pop, hs, hl, Except.ok.injEq] at h
        rw [← h]
        exact hInv.1 fd sock loc hs hl
  exact ⟨BoundInv_initPeer, hstep, hrun, hpop, fun ops fd r h => hpop (runOps ops) (hrun ops) fd r h⟩

/-- C9 witness: on the state reached by socket 0 then bind 0 to 10.0.0.1:9000,
`pop 0` captures the bound listener and the theorem yields that the unchecked
lookup is populated. -/
theorem pop_listener_always_bound_witness :
    UdpPeer.pop (runOps [UdpOp.opSocket 0, UdpOp.opBind 0 ⟨10, 9000⟩]) 0 =
      Except.ok (some ⟨[], none⟩) ∧
    (some (⟨[], none⟩ : Listener)).isSome = true :=
  ⟨rfl,
   pop_listener_always_bound.2.2.2.2 [UdpOp.opSocket 0, UdpOp.opBind 0 ⟨10, 9000⟩] 0
     (some ⟨[], none⟩) rfl⟩
